import Mathlib

/-!
# emscripten-glfw: the `Context` coordinator (`src/cpp/emscripten/glfw3/Context.h`)

A shallow embedding of the class `emscripten::glfw3::Context`.

* Every data member of the class (Context.h:108-132) is a field of the structure
  `Context`, under its source name, with its default member initialiser.
* The member functions whose body is in the header (`defaultWindowHints`,
  `setMonitorCallback`, `setJoystickCallback`, `onFocus`) are translated from that body.
* The member functions that the header only declares (`destroyWindow`, `getWindow`,
  `findWindow`, `getCurrentContext`, `requestFullscreen`, `requestPointerLock`,
  `requestPointerUnlock`, `onWindowResize`, `onEnterFullscreen`, `onExitFullscreen`,
  `findFocusedOrSingleWindow`, `getTimerValue`, `getTimeInSeconds`, `setTimeInSeconds`) and
  the classes of `Window.h` and `Monitor.h` are modelled from the specification; each such
  definition says so in its doc comment.

Pointers are addresses: a `GLFWwindow*` is `Option Nat`, `none` being `nullptr`. The handle
of a window is the address of its `Window` object, so a `std::shared_ptr<Window>` is
modelled by the address it points to, and the objects themselves live in the registry
`fWindows`. The type `Config` (declared outside Context.h) is a parameter; `Config{}` is
`default`. The `float` and `double` members hold rationals, and the arithmetic of the time
functions is the exact arithmetic of rationals: the rounding of IEEE doubles is not modelled.
-/

namespace emscripten.glfw3

/-! ## Types used by the members of `Context` -/

/-- Timer frequency `constexpr static uint64_t kTimerFrequency = 1000;` (Context.h:33-34),
commented there with "in javascript the performance/DOMHighResTimeStamp measures in
milliseconds". -/
def kTimerFrequency : Nat := 1000

/-- Pointer `GLFWwindow*`: `none` is `nullptr`, `some a` the window whose object is at `a`. -/
abbrev GLFWwindowPtr := Option Nat

/-- Function pointer `GLFWmonitorfun`: `none` is the null callback. -/
abbrev GLFWmonitorfun := Option Nat

/-- Function pointer `GLFWjoystickfun`: `none` is the null callback. -/
abbrev GLFWjoystickfun := Option Nat

/-- Modelled from the spec: the class `Window` of Window.h, with the attributes of the data
model ("opaque handle, geometry, title, canvas binding, focus flag") and the resize callback
slot that `onWindowResize` dispatches "only if a resize callback is registered". The pending
requests are members of `Context` in the code (Context.h:118-120), not of `Window`. -/
structure Window where
  /-- Address of the object, which is also its opaque handle. -/
  handle : Nat
  fWidth : Int
  fHeight : Int
  fTitle : String
  fCanvasSelector : String
  fFocused : Bool
  fSizeCallback : Option Nat
  deriving DecidableEq, Repr

/-- The opaque pointer handed out for a window. -/
def Window.asOpaquePtr (w : Window) : GLFWwindowPtr := some w.handle

/-- Modelled from the spec: the class `Monitor` of Monitor.h ("position, work-area rect,
content-scale factor"). -/
structure Monitor where
  fXPos : Int
  fYPos : Int
  fWorkAreaX : Int
  fWorkAreaY : Int
  fWorkAreaWidth : Int
  fWorkAreaHeight : Int
  fContentScale : ℚ
  deriving DecidableEq, Repr

/-- Modelled from the spec: `Window::FullscreenRequest` of Window.h ("target window, desired
options (lock pointer, resize canvas)"), built by `requestFullscreen(iWindow, iLockPointer,
iResizeCanvas)`. -/
structure FullscreenRequest where
  fWindow : GLFWwindowPtr
  fLockPointer : Bool
  fResizeCanvas : Bool
  deriving DecidableEq, Repr

/-- Modelled from the spec: `Window::PointerLockRequest` of Window.h, built by
`requestPointerLock(iWindow)`. -/
structure PointerLockRequest where
  fWindow : GLFWwindowPtr
  deriving DecidableEq, Repr

/-- Modelled from the spec: `Window::PointerUnlockRequest` of Window.h ("which cursor mode to
apply afterward"), built by `requestPointerUnlock(iWindow, iCursorMode)`. -/
structure PointerUnlockRequest where
  fWindow : GLFWwindowPtr
  fCursorMode : Int
  deriving DecidableEq, Repr

/-- Modelled from the spec: `EventListener<T>` ("one live host subscription": an enabled flag
and a target callback); `EventListener<T>{}` is the listener that is not subscribed. -/
structure EventListener where
  fEnabled : Bool := false
  fCallback : Option Nat := none
  deriving DecidableEq, Repr

/-- One synchronous call of an application callback, as recorded in the trace
`Context.dispatched`. -/
inductive Invocation where
  /-- Call of a window resize callback `cb(window, width, height)`. -/
  | windowSize (cb : Nat) (window : Nat) (width height : Int)
  /-- Call of the monitor callback `cb(monitor, event)`. -/
  | monitor (cb : Nat) (event : Int)
  /-- Call of the joystick callback `cb(jid, event)`. -/
  | joystick (cb : Nat) (jid : Int) (event : Int)
  deriving DecidableEq, Repr

/-- Data members of `class Context` (Context.h:108-132), in declaration order, followed by
the ghost trace `dispatched` of the application callbacks invoked so far (it is not a member
of the class: it makes "this operation calls no callback" a statement about the state). -/
structure Context (Config : Type) where
  fWindows : List Window
  fCurrentWindowOpaquePtr : GLFWwindowPtr
  fCurrentWindow : Option Nat
  fCurrentMonitor : Option Monitor
  fLastKnownFocusedWindow : GLFWwindowPtr
  fConfig : Config
  fScale : ℚ
  fInitialTime : ℚ
  fPresentJoystickCount : Int
  fFullscreenRequest : Option FullscreenRequest
  fPointerLockRequest : Option PointerLockRequest
  fPointerUnlockRequest : Option PointerUnlockRequest
  fMonitorCallback : GLFWmonitorfun
  fJoystickCallback : GLFWjoystickfun
  fOnMouseButtonUp : EventListener
  fOnKeyDown : EventListener
  fOnKeyUp : EventListener
  fOnFullscreenChange : EventListener
  fOnPointerLockChange : EventListener
  fOnPointerLockError : EventListener
  fOnGamepadConnected : EventListener
  fOnGamepadDisconnected : EventListener
  dispatched : List Invocation
  deriving DecidableEq

namespace Context

variable {Config : Type}

/-! ## Construction -/

/-- The state given by the default member initialisers of `Context` (Context.h:108-132).
`iPlatformTime` is the value `getPlatformTimerValue()` returns at construction and
`iMonitor` the object `Monitor{}`; both come from outside Context.h. -/
def memberInit [Inhabited Config] (iPlatformTime : ℚ) (iMonitor : Monitor) : Context Config :=
  { fWindows := []
    fCurrentWindowOpaquePtr := none
    fCurrentWindow := none
    fCurrentMonitor := some iMonitor
    fLastKnownFocusedWindow := none
    fConfig := default
    fScale := 1
    fInitialTime := iPlatformTime
    fPresentJoystickCount := 0
    fFullscreenRequest := none
    fPointerLockRequest := none
    fPointerUnlockRequest := none
    fMonitorCallback := none
    fJoystickCallback := none
    fOnMouseButtonUp := {}
    fOnKeyDown := {}
    fOnKeyUp := {}
    fOnFullscreenChange := {}
    fOnPointerLockChange := {}
    fOnPointerLockError := {}
    fOnGamepadConnected := {}
    fOnGamepadDisconnected := {}
    dispatched := [] }

/-! ## Member functions defined in the header -/

/-- Source: `void defaultWindowHints() { fConfig = {}; }` (Context.h:44). -/
def defaultWindowHints [Inhabited Config] (ctx : Context Config) : Context Config :=
  { ctx with fConfig := default }

/-- Source: `GLFWmonitorfun setMonitorCallback(GLFWmonitorfun iCallback)
{ return std::exchange(fMonitorCallback, iCallback); }` (Context.h:65). The result is the new
state and the returned callback. -/
def setMonitorCallback (ctx : Context Config) (iCallback : GLFWmonitorfun) :
    Context Config × GLFWmonitorfun :=
  ({ ctx with fMonitorCallback := iCallback }, ctx.fMonitorCallback)

/-- Source: `GLFWjoystickfun setJoystickCallback(GLFWjoystickfun iCallback)
{ return std::exchange(fJoystickCallback, iCallback); }` (Context.h:72). -/
def setJoystickCallback (ctx : Context Config) (iCallback : GLFWjoystickfun) :
    Context Config × GLFWjoystickfun :=
  ({ ctx with fJoystickCallback := iCallback }, ctx.fJoystickCallback)

/-- Source: `void onFocus(GLFWwindow *iWindow) { fLastKnownFocusedWindow = iWindow; }`
(Context.h:92). -/
def onFocus (ctx : Context Config) (iWindow : GLFWwindowPtr) : Context Config :=
  { ctx with fLastKnownFocusedWindow := iWindow }

/-- A run of `setMonitorCallback(c1)`, ..., `setMonitorCallback(cN)` in this order: the final
state and the values the calls returned, in call order. -/
def setMonitorCallbacks (ctx : Context Config) :
    List GLFWmonitorfun → Context Config × List GLFWmonitorfun
  | [] => (ctx, [])
  | c :: cs =>
    let first := ctx.setMonitorCallback c
    let rest := setMonitorCallbacks first.1 cs
    (rest.1, first.2 :: rest.2)

/-- A run of `setJoystickCallback(c1)`, ..., `setJoystickCallback(cN)` in this order: the
final state and the values the calls returned, in call order. -/
def setJoystickCallbacks (ctx : Context Config) :
    List GLFWjoystickfun → Context Config × List GLFWjoystickfun
  | [] => (ctx, [])
  | c :: cs =>
    let first := ctx.setJoystickCallback c
    let rest := setJoystickCallbacks first.1 cs
    (rest.1, first.2 :: rest.2)

/-! ## Member functions declared in the header, modelled from the specification -/

/-- Modelled from the spec: `findWindow(handle)`, whose body is not in Context.h ("lookup by
opaque handle; returns a shared reference or null — never throws for an unknown handle"). -/
def findWindow (ctx : Context Config) (iWindow : GLFWwindowPtr) : Option Window :=
  ctx.fWindows.find? (fun w => decide (w.asOpaquePtr = iWindow))

/-- Modelled from the spec: `getWindow(handle)`, whose body is not in Context.h; the spec
gives it the contract of `findWindow`. -/
def getWindow (ctx : Context Config) (iWindow : GLFWwindowPtr) : Option Window :=
  ctx.findWindow iWindow

/-- Modelled from the spec: `getCurrentContext()`, whose body is not in Context.h ("reads the
single current-for-rendering window"); it returns a `GLFWwindow*`, the member
`fCurrentWindowOpaquePtr`. -/
def getCurrentContext (ctx : Context Config) : GLFWwindowPtr :=
  ctx.fCurrentWindowOpaquePtr

/-- Modelled from the spec: `destroyWindow(handle)`, whose body is not in Context.h. "Removes
the Window from the registry; if it was current-window or last-known-focused-window, both are
cleared to null/nothing", which the invariant of the data model states slot by slot
("removing a window clears it from current-window and last-focused-window if it was
referenced there"): a slot is cleared when it refers to the destroyed window. "Destroying a
Window cancels any pending request on it silently": a pending request is discarded when its
target is the destroyed window. -/
def destroyWindow (ctx : Context Config) (iWindow : GLFWwindowPtr) : Context Config :=
  { ctx with
    fWindows := ctx.fWindows.filter (fun w => !decide (w.asOpaquePtr = iWindow))
    fCurrentWindowOpaquePtr :=
      if ctx.fCurrentWindowOpaquePtr = iWindow then none else ctx.fCurrentWindowOpaquePtr
    fCurrentWindow := if ctx.fCurrentWindow = iWindow then none else ctx.fCurrentWindow
    fLastKnownFocusedWindow :=
      if ctx.fLastKnownFocusedWindow = iWindow then none else ctx.fLastKnownFocusedWindow
    fFullscreenRequest := ctx.fFullscreenRequest.filter (fun r => !decide (r.fWindow = iWindow))
    fPointerLockRequest :=
      ctx.fPointerLockRequest.filter (fun r => !decide (r.fWindow = iWindow))
    fPointerUnlockRequest :=
      ctx.fPointerUnlockRequest.filter (fun r => !decide (r.fWindow = iWindow)) }

/-- Modelled from the spec: `requestFullscreen(iWindow, iLockPointer, iResizeCanvas)`, whose
body is not in Context.h ("request object stored, host-level action issued"; "a new requestX
call while already Pending replaces the stored request (no queue)"). The host-level action
is outside the state. -/
def requestFullscreen (ctx : Context Config) (iWindow : GLFWwindowPtr)
    (iLockPointer iResizeCanvas : Bool) : Context Config :=
  { ctx with fFullscreenRequest := some ⟨iWindow, iLockPointer, iResizeCanvas⟩ }

/-- Modelled from the spec: `requestPointerLock(iWindow)`, whose body is not in Context.h
(same state machine as `requestFullscreen`). -/
def requestPointerLock (ctx : Context Config) (iWindow : GLFWwindowPtr) : Context Config :=
  { ctx with fPointerLockRequest := some ⟨iWindow⟩ }

/-- Modelled from the spec: `requestPointerUnlock(iWindow, iCursorMode)`, whose body is not in
Context.h (same state machine as `requestFullscreen`). -/
def requestPointerUnlock (ctx : Context Config) (iWindow : GLFWwindowPtr) (iCursorMode : Int) :
    Context Config :=
  { ctx with fPointerUnlockRequest := some ⟨iWindow, iCursorMode⟩ }

/-- A run of `requestFullscreen(iWindow, lockPointer_i, resizeCanvas_i)` calls on one window,
in this order, nothing else happening in between. -/
def requestFullscreens (ctx : Context Config) (iWindow : GLFWwindowPtr) :
    List (Bool × Bool) → Context Config
  | [] => ctx
  | o :: os => requestFullscreens (ctx.requestFullscreen iWindow o.1 o.2) iWindow os

/-- Modelled from the spec: `findFocusedOrSingleWindow()`, whose body is not in Context.h
("prefer the window that currently has input focus; if none is focused, fall back to the sole
remaining window if exactly one exists; otherwise the event is dropped"). -/
def findFocusedOrSingleWindow (ctx : Context Config) : Option Window :=
  match ctx.fWindows.find? (fun w => w.fFocused) with
  | some w => some w
  | none =>
    match ctx.fWindows with
    | [w] => some w
    | _ => none

/-- Modelled from the spec: `onWindowResize(iWindow, iWidth, iHeight)`, whose body is not in
Context.h ("applies new pixel dimensions and, only if a resize callback is registered,
dispatches it"). -/
def onWindowResize (ctx : Context Config) (iWindow : GLFWwindowPtr) (iWidth iHeight : Int) :
    Context Config :=
  match ctx.findWindow iWindow with
  | none => ctx
  | some win =>
    let resized : Context Config :=
      { ctx with
        fWindows := ctx.fWindows.map (fun w =>
          if w.handle = win.handle then { w with fWidth := iWidth, fHeight := iHeight } else w) }
    match win.fSizeCallback with
    | none => resized
    | some cb =>
      { resized with
        dispatched := resized.dispatched ++ [Invocation.windowSize cb win.handle iWidth iHeight] }

/-- The window a host fullscreen confirmation is attributed to: the target of the pending
fullscreen request when there is one ("matched against whichever window currently has a
pending request of the matching kind"), else, the event carrying no window identity, the
window `findFocusedOrSingleWindow` gives. -/
def fullscreenTarget (ctx : Context Config) : Option Window :=
  match ctx.fFullscreenRequest with
  | some r => ctx.findWindow r.fWindow
  | none => ctx.findFocusedOrSingleWindow

/-- Modelled from the spec: `onEnterFullscreen(event)`, whose body is not in Context.h. The
confirmation clears the pending request. When it can be attributed to a window, the options
of the request are applied ("whether to also lock the pointer, whether to resize the backing
canvas to match the display": the "window geometry updates to the Monitor's work-area
dimensions and a pointer-lock request is now pending") and the result is `true`; otherwise
"the event is dropped" and the result is `false`. -/
def onEnterFullscreen (ctx : Context Config) : Context Config × Bool :=
  let cleared : Context Config := { ctx with fFullscreenRequest := none }
  match ctx.fullscreenTarget with
  | none => (cleared, false)
  | some win =>
    let lockPointer := (ctx.fFullscreenRequest.map (fun r => r.fLockPointer)).getD false
    let resizeCanvas := (ctx.fFullscreenRequest.map (fun r => r.fResizeCanvas)).getD false
    let resized : Context Config :=
      match resizeCanvas, cleared.fCurrentMonitor with
      | true, some m => cleared.onWindowResize win.asOpaquePtr m.fWorkAreaWidth m.fWorkAreaHeight
      | _, _ => cleared
    (if lockPointer then resized.requestPointerLock win.asOpaquePtr else resized, true)

/-- Modelled from the spec: `static uint64_t getTimerValue()`, whose body is not in Context.h:
the raw timer is the "platform-specific high-resolution clock whose reported unit is
milliseconds", read as a `uint64_t`, that is the whole ticks of the clock value (a
conversion from `double` to an unsigned integer drops the fraction) within 64 bits. The
clock does not report negative values; one would read as 0. -/
def getTimerValue (iPlatformTimerValue : ℚ) : Nat :=
  ⌊iPlatformTimerValue⌋.toNat % 2 ^ 64

/-- Modelled from the spec: `double getTimeInSeconds() const`, whose body is not in
Context.h: "time is measured relative to an adjustable origin", the member `fInitialTime`
(initialised with `getPlatformTimerValue()`, Context.h:115), and the clock's ticks go to
seconds through the timer frequency `kTimerFrequency`. -/
def getTimeInSeconds (ctx : Context Config) (iPlatformTimerValue : ℚ) : ℚ :=
  (iPlatformTimerValue - ctx.fInitialTime) / (kTimerFrequency : ℚ)

/-- Modelled from the spec: `void setTimeInSeconds(double iValue)`, whose body is not in
Context.h: it "re-bases the origin so subsequent reads are relative to the new value,
without altering the underlying clock". -/
def setTimeInSeconds (ctx : Context Config) (iPlatformTimerValue : ℚ) (iValue : ℚ) :
    Context Config :=
  { ctx with fInitialTime := iPlatformTimerValue - iValue * (kTimerFrequency : ℚ) }

/-! ## Pending requests, as lists -/

/-- The pending fullscreen requests held by the Context (member `fFullscreenRequest`). -/
def pendingFullscreenRequests (ctx : Context Config) : List FullscreenRequest :=
  ctx.fFullscreenRequest.toList

/-- The pending pointer-lock requests held by the Context (member `fPointerLockRequest`). -/
def pendingPointerLockRequests (ctx : Context Config) : List PointerLockRequest :=
  ctx.fPointerLockRequest.toList

/-- The pending pointer-unlock requests held by the Context (member
`fPointerUnlockRequest`). -/
def pendingPointerUnlockRequests (ctx : Context Config) : List PointerUnlockRequest :=
  ctx.fPointerUnlockRequest.toList

/-- Whether a fullscreen negotiation is in flight for the window `w`. -/
def hasFullscreenNegotiation (ctx : Context Config) (w : Window) : Bool :=
  ctx.pendingFullscreenRequests.any (fun r => decide (r.fWindow = w.asOpaquePtr))

/-! ## Examples used to evaluate the definitions -/

/-- Window "Demo" (800x600) at address 1, not focused, no resize callback. -/
def demoWindow1 : Window :=
  { handle := 1, fWidth := 800, fHeight := 600, fTitle := "Demo",
    fCanvasSelector := "#canvas", fFocused := false, fSizeCallback := none }

/-- Window "Other" (640x480) at address 2, not focused, resize callback at address 77. -/
def demoWindow2 : Window :=
  { handle := 2, fWidth := 640, fHeight := 480, fTitle := "Other",
    fCanvasSelector := "#canvas2", fFocused := false, fSizeCallback := some 77 }

/-- Monitor with a 1920x1080 work area. -/
def demoMonitor : Monitor :=
  { fXPos := 0, fYPos := 0, fWorkAreaX := 0, fWorkAreaY := 0,
    fWorkAreaWidth := 1920, fWorkAreaHeight := 1080, fContentScale := 1 }

/-- Context with the two demo windows, window 1 current and window 2 last focused; the
pending configuration is a natural number. -/
def demoContext : Context Nat :=
  { (memberInit 0 demoMonitor : Context Nat) with
    fWindows := [demoWindow1, demoWindow2]
    fCurrentWindowOpaquePtr := some 1
    fCurrentWindow := some 1
    fLastKnownFocusedWindow := some 2 }

/-! ## Lemmas on runs of callback registrations -/

theorem setMonitorCallbacks_returns (cs : List GLFWmonitorfun) (ctx : Context Config) :
    (ctx.setMonitorCallbacks cs).2 = (ctx.fMonitorCallback :: cs).dropLast := by
  induction cs generalizing ctx with
  | nil => rfl
  | cons c cs ih =>
    show (ctx.setMonitorCallback c).2 :: ((ctx.setMonitorCallback c).1.setMonitorCallbacks cs).2 = _
    rw [ih (ctx.setMonitorCallback c).1]
    rfl

theorem setMonitorCallbacks_slot (cs : List GLFWmonitorfun) (ctx : Context Config) :
    (ctx.setMonitorCallbacks cs).1.fMonitorCallback = cs.getLastD ctx.fMonitorCallback := by
  induction cs generalizing ctx with
  | nil => rfl
  | cons c cs ih =>
    show ((ctx.setMonitorCallback c).1.setMonitorCallbacks cs).1.fMonitorCallback = _
    rw [ih (ctx.setMonitorCallback c).1, List.getLastD_cons]
    rfl

theorem setJoystickCallbacks_returns (cs : List GLFWjoystickfun) (ctx : Context Config) :
    (ctx.setJoystickCallbacks cs).2 = (ctx.fJoystickCallback :: cs).dropLast := by
  induction cs generalizing ctx with
  | nil => rfl
  | cons c cs ih =>
    show (ctx.setJoystickCallback c).2 :: ((ctx.setJoystickCallback c).1.setJoystickCallbacks cs).2 = _
    rw [ih (ctx.setJoystickCallback c).1]
    rfl

theorem setJoystickCallbacks_slot (cs : List GLFWjoystickfun) (ctx : Context Config) :
    (ctx.setJoystickCallbacks cs).1.fJoystickCallback = cs.getLastD ctx.fJoystickCallback := by
  induction cs generalizing ctx with
  | nil => rfl
  | cons c cs ih =>
    show ((ctx.setJoystickCallback c).1.setJoystickCallbacks cs).1.fJoystickCallback = _
    rw [ih (ctx.setJoystickCallback c).1, List.getLastD_cons]
    rfl

/-- In `(x :: cs).dropLast`, the list of values returned by a run of registrations, entry
`0` is `x` and entry `i + 1` is `cs[i]`. -/
theorem dropLast_cons_getElem? {α : Type} (x : α) (cs : List α) :
    (cs ≠ [] → (x :: cs).dropLast[0]? = some x) ∧
    (∀ i, i + 1 < cs.length → (x :: cs).dropLast[i + 1]? = cs[i]?) := by
  refine ⟨?_, ?_⟩
  · intro h
    cases cs with
    | nil => exact absurd rfl h
    | cons c cs => simp [List.dropLast_cons₂]
  · intro i hi
    have hlen : i + 1 < (x :: cs).dropLast.length := by simp; omega
    rw [List.getElem?_eq_getElem hlen, List.getElem_dropLast, List.getElem_cons_succ]
    exact (List.getElem?_eq_getElem _).symm

theorem getLastD_eq_getLast {α : Type} (x : α) (cs : List α) (h : cs ≠ []) :
    cs.getLastD x = cs.getLast h := by
  cases cs with
  | nil => exact absurd rfl h
  | cons c cs => rw [List.getLastD_cons, List.getLast_eq_getLastD]

/-! ## Lemmas on runs of fullscreen requests -/

theorem requestFullscreen_requestFullscreen (ctx : Context Config) (iWindow : GLFWwindowPtr)
    (a b c d : Bool) :
    (ctx.requestFullscreen iWindow a b).requestFullscreen iWindow c d
      = ctx.requestFullscreen iWindow c d := rfl

theorem requestFullscreens_eq_last (iWindow : GLFWwindowPtr) (os : List (Bool × Bool))
    (h : os ≠ []) (ctx : Context Config) :
    ctx.requestFullscreens iWindow os
      = ctx.requestFullscreen iWindow (os.getLast h).1 (os.getLast h).2 := by
  induction os generalizing ctx with
  | nil => exact absurd rfl h
  | cons o os ih =>
    cases os with
    | nil => rfl
    | cons p ps =>
      show (ctx.requestFullscreen iWindow o.1 o.2).requestFullscreens iWindow (p :: ps) = _
      rw [ih (List.cons_ne_nil p ps), requestFullscreen_requestFullscreen]
      rfl

/-! ## Lemmas on the focused-or-single-window resolution -/

theorem findWindow_handle (ctx : Context Config) (iWindow : GLFWwindowPtr) (win : Window)
    (h : ctx.findWindow iWindow = some win) : win.asOpaquePtr = iWindow := by
  have hp := List.find?_some h
  simpa using hp

theorem find?_map_update (upd : Window → Window) (hupd : ∀ w, (upd w).handle = w.handle)
    (iWindow : GLFWwindowPtr) (win : Window) (l : List Window)
    (h : l.find? (fun w => decide (w.asOpaquePtr = iWindow)) = some win) :
    (l.map (fun w => if w.handle = win.handle then upd w else w)).find?
      (fun w => decide (w.asOpaquePtr = iWindow)) = some (upd win) := by
  have hwin : win.asOpaquePtr = iWindow := by
    have hp := List.find?_some h
    simpa using hp
  induction l with
  | nil => simp at h
  | cons x xs ih =>
    by_cases hx : x.asOpaquePtr = iWindow
    · have hxw : x = win := by simpa [List.find?_cons, hx] using h
      subst hxw
      have hux : (upd x).asOpaquePtr = iWindow := by
        rw [← hx]
        simp [Window.asOpaquePtr, hupd]
      simp only [List.map_cons, if_pos, List.find?_cons, hux, decide_True]
    · have hne : x.handle ≠ win.handle := by
        intro he
        apply hx
        rw [← hwin]
        simp [Window.asOpaquePtr, he]
      have hrest : xs.find? (fun w => decide (w.asOpaquePtr = iWindow)) = some win := by
        simpa [List.find?_cons, hx] using h
      simp only [List.map_cons, if_neg hne, List.find?_cons, hx, decide_False]
      exact ih hrest

theorem findWindow_onWindowResize (ctx : Context Config) (iWindow : GLFWwindowPtr)
    (win : Window) (iWidth iHeight : Int) (h : ctx.findWindow iWindow = some win) :
    (ctx.onWindowResize iWindow iWidth iHeight).findWindow iWindow
      = some { win with fWidth := iWidth, fHeight := iHeight } := by
  have hmap := find?_map_update (fun w => { w with fWidth := iWidth, fHeight := iHeight })
    (fun _ => rfl) iWindow win ctx.fWindows h
  have hw : (ctx.onWindowResize iWindow iWidth iHeight).fWindows
      = ctx.fWindows.map (fun w =>
          if w.handle = win.handle then { w with fWidth := iWidth, fHeight := iHeight }
          else w) := by
    unfold onWindowResize
    rw [h]
    dsimp only
    split <;> rfl
  unfold findWindow
  rw [hw]
  exact hmap

/-! ## Lemmas on the fullscreen handlers -/

theorem onEnterFullscreen_requestFullscreen (ctx : Context Config) (iWindow : GLFWwindowPtr)
    (iLockPointer iResizeCanvas : Bool) (win : Window)
    (h : ctx.findWindow iWindow = some win) :
    (ctx.requestFullscreen iWindow iLockPointer iResizeCanvas).onEnterFullscreen =
      (let cleared : Context Config := { ctx with fFullscreenRequest := none }
       let resized : Context Config :=
         match iResizeCanvas, ctx.fCurrentMonitor with
         | true, some m => cleared.onWindowResize iWindow m.fWorkAreaWidth m.fWorkAreaHeight
         | _, _ => cleared
       (if iLockPointer then resized.requestPointerLock iWindow else resized, true)) := by
  have ht : (ctx.requestFullscreen iWindow iLockPointer iResizeCanvas).fullscreenTarget
      = some win := h
  have hp := findWindow_handle ctx iWindow win h
  unfold onEnterFullscreen
  rw [ht]
  simp only [requestFullscreen, Option.map_some', Option.getD_some, hp]

theorem onWindowResize_requests (ctx : Context Config) (iWindow : GLFWwindowPtr)
    (iWidth iHeight : Int) :
    (ctx.onWindowResize iWindow iWidth iHeight).fFullscreenRequest = ctx.fFullscreenRequest ∧
    (ctx.onWindowResize iWindow iWidth iHeight).fPointerLockRequest
      = ctx.fPointerLockRequest := by
  unfold onWindowResize
  split
  · exact ⟨rfl, rfl⟩
  · dsimp only
    split <;> exact ⟨rfl, rfl⟩

/-! ## The trace of invoked callbacks is written by the handlers that dispatch -/

/-- Resizing demo window 2, which has a resize callback registered at address 77, records
one call of that callback with the new size; resizing demo window 1, which has none,
records nothing. -/
theorem onWindowResize_demo_dispatch :
    (demoContext.onWindowResize (some 2) 300 200).dispatched
      = [Invocation.windowSize 77 2 300 200] ∧
    (demoContext.onWindowResize (some 1) 300 200).dispatched = [] := by
  decide

/-! ## Evaluation of the raw timer -/

/-- The clock value 5/2 ms has 2 whole ticks. -/
theorem floor_five_halves : ⌊(5 / 2 : ℚ)⌋ = 2 := by
  rw [Int.floor_eq_iff]
  constructor <;> norm_num

/-- At clock value 5/2 ms the raw timer reads 2. -/
theorem getTimerValue_five_halves : getTimerValue (5 / 2) = 2 := by
  unfold getTimerValue
  rw [floor_five_halves]
  rfl

end Context

/-! ## Claims settled on the code of Context.h -/

/-- C1: `setMonitorCallback(c)` and `setJoystickCallback(c)` return the callback that was in
the slot before the call and store `c` in the slot. Hence in a run of registrations
`c1..cN` the first call returns what the slot held at the start, which is the null callback
on a Context fresh from its member initialisers, call `i + 2` returns the callback
registered by call `i + 1`, and after the run the slot holds `cN`. -/
theorem C1_callback_setters_return_previous {Config : Type} [Inhabited Config]
    (ctx : Context Config) (c : Option Nat) (cs : List (Option Nat))
    (iPlatformTime : ℚ) (iMonitor : Monitor) :
    ((ctx.setMonitorCallback c).2 = ctx.fMonitorCallback ∧
      (ctx.setMonitorCallback c).1.fMonitorCallback = c) ∧
    ((ctx.setJoystickCallback c).2 = ctx.fJoystickCallback ∧
      (ctx.setJoystickCallback c).1.fJoystickCallback = c) ∧
    ((ctx.setMonitorCallbacks cs).2.length = cs.length ∧
      (cs ≠ [] → (ctx.setMonitorCallbacks cs).2[0]? = some ctx.fMonitorCallback) ∧
      (∀ i, i + 1 < cs.length → (ctx.setMonitorCallbacks cs).2[i + 1]? = cs[i]?) ∧
      (∀ h : cs ≠ [], (ctx.setMonitorCallbacks cs).1.fMonitorCallback = cs.getLast h)) ∧
    ((ctx.setJoystickCallbacks cs).2.length = cs.length ∧
      (cs ≠ [] → (ctx.setJoystickCallbacks cs).2[0]? = some ctx.fJoystickCallback) ∧
      (∀ i, i + 1 < cs.length → (ctx.setJoystickCallbacks cs).2[i + 1]? = cs[i]?) ∧
      (∀ h : cs ≠ [], (ctx.setJoystickCallbacks cs).1.fJoystickCallback = cs.getLast h)) ∧
    ((Context.memberInit iPlatformTime iMonitor : Context Config).fMonitorCallback = none ∧
      (Context.memberInit iPlatformTime iMonitor : Context Config).fJoystickCallback = none ∧
      (cs ≠ [] →
        ((Context.memberInit iPlatformTime iMonitor : Context Config).setMonitorCallbacks
          cs).2[0]? = some none) ∧
      (cs ≠ [] →
        ((Context.memberInit iPlatformTime iMonitor : Context Config).setJoystickCallbacks
          cs).2[0]? = some none)) := by
  have hm : ∀ x : Context Config,
      (x.setMonitorCallbacks cs).2.length = cs.length ∧
      (cs ≠ [] → (x.setMonitorCallbacks cs).2[0]? = some x.fMonitorCallback) ∧
      (∀ i, i + 1 < cs.length → (x.setMonitorCallbacks cs).2[i + 1]? = cs[i]?) ∧
      (∀ h : cs ≠ [], (x.setMonitorCallbacks cs).1.fMonitorCallback = cs.getLast h) := by
    intro x
    rw [Context.setMonitorCallbacks_returns, Context.setMonitorCallbacks_slot]
    refine ⟨by simp, (Context.dropLast_cons_getElem? x.fMonitorCallback cs).1,
      (Context.dropLast_cons_getElem? x.fMonitorCallback cs).2,
      fun h => Context.getLastD_eq_getLast x.fMonitorCallback cs h⟩
  have hj : ∀ x : Context Config,
      (x.setJoystickCallbacks cs).2.length = cs.length ∧
      (cs ≠ [] → (x.setJoystickCallbacks cs).2[0]? = some x.fJoystickCallback) ∧
      (∀ i, i + 1 < cs.length → (x.setJoystickCallbacks cs).2[i + 1]? = cs[i]?) ∧
      (∀ h : cs ≠ [], (x.setJoystickCallbacks cs).1.fJoystickCallback = cs.getLast h) := by
    intro x
    rw [Context.setJoystickCallbacks_returns, Context.setJoystickCallbacks_slot]
    refine ⟨by simp, (Context.dropLast_cons_getElem? x.fJoystickCallback cs).1,
      (Context.dropLast_cons_getElem? x.fJoystickCallback cs).2,
      fun h => Context.getLastD_eq_getLast x.fJoystickCallback cs h⟩
  refine ⟨⟨rfl, rfl⟩, ⟨rfl, rfl⟩, hm ctx, hj ctx, rfl, rfl, ?_, ?_⟩
  · exact (hm (Context.memberInit iPlatformTime iMonitor)).2.1
  · exact (hj (Context.memberInit iPlatformTime iMonitor)).2.1

/-- Witness of C1: three monitor callbacks registered on a fresh Context; the second call
returns the first callback. -/
theorem C1_callback_setters_return_previous_witness :
    0 + 1 < [some 5, some 6, some 7].length ∧
    ((Context.memberInit 0 Context.demoMonitor : Context Nat).setMonitorCallbacks
      [some 5, some 6, some 7]).2[0 + 1]? = [some 5, some 6, some 7][0]? :=
  ⟨by decide,
    (C1_callback_setters_return_previous (Context.memberInit 0 Context.demoMonitor : Context Nat)
      none [some 5, some 6, some 7] 0 Context.demoMonitor).2.2.1.2.2.1 0 (by decide)⟩

/-- C5: whatever the pending configuration was, `defaultWindowHints()` leaves it equal to
the default-constructed `Config`; calling it twice gives the state of calling it once; and it
changes no other member: putting the old configuration back gives the old state, so the
registry, every lookup of a window, and the trace of invoked callbacks are unchanged. -/
theorem C5_defaultWindowHints_resets_only_config {Config : Type} [Inhabited Config]
    (ctx : Context Config) (iPending : Config) (iWindow : GLFWwindowPtr) :
    ctx.defaultWindowHints.fConfig = default ∧
    ({ ctx with fConfig := iPending } : Context Config).defaultWindowHints
      = ctx.defaultWindowHints ∧
    ctx.defaultWindowHints.defaultWindowHints = ctx.defaultWindowHints ∧
    ({ ctx.defaultWindowHints with fConfig := ctx.fConfig } : Context Config) = ctx ∧
    ctx.defaultWindowHints.fWindows = ctx.fWindows ∧
    ctx.defaultWindowHints.getWindow iWindow = ctx.getWindow iWindow ∧
    ctx.defaultWindowHints.dispatched = ctx.dispatched :=
  ⟨rfl, rfl, rfl, rfl, rfl, rfl, rfl⟩

/-- C6: `onFocus(w)` sets the last-known-focused window to `w` and leaves the current window
(`getCurrentContext()`, that is `fCurrentWindowOpaquePtr`, and `fCurrentWindow`) and every
other member as they were: putting the old last-focused window back gives the old state. -/
theorem C6_onFocus_changes_only_last_focused {Config : Type}
    (ctx : Context Config) (iWindow : GLFWwindowPtr) :
    (ctx.onFocus iWindow).fLastKnownFocusedWindow = iWindow ∧
    (ctx.onFocus iWindow).getCurrentContext = ctx.getCurrentContext ∧
    (ctx.onFocus iWindow).fCurrentWindowOpaquePtr = ctx.fCurrentWindowOpaquePtr ∧
    (ctx.onFocus iWindow).fCurrentWindow = ctx.fCurrentWindow ∧
    ({ ctx.onFocus iWindow with fLastKnownFocusedWindow := ctx.fLastKnownFocusedWindow }
      : Context Config) = ctx :=
  ⟨rfl, rfl, rfl, rfl, rfl⟩

/-- C8: `setMonitorCallback(c)` changes only the monitor callback slot and
`setJoystickCallback(c)` only the joystick callback slot: putting the old callback back gives
the old state, so the other slot, the registry, the current and last-focused windows, the
pending configuration, the pending requests, the scale and the time origin are unchanged,
and so is the trace of invoked callbacks: neither setter calls a callback. -/
theorem C8_callback_setters_change_only_their_slot {Config : Type}
    (ctx : Context Config) (c : Option Nat) :
    (({ (ctx.setMonitorCallback c).1 with fMonitorCallback := ctx.fMonitorCallback }
        : Context Config) = ctx ∧
      (ctx.setMonitorCallback c).1.fJoystickCallback = ctx.fJoystickCallback ∧
      (ctx.setMonitorCallback c).1.fWindows = ctx.fWindows ∧
      (ctx.setMonitorCallback c).1.fCurrentWindowOpaquePtr = ctx.fCurrentWindowOpaquePtr ∧
      (ctx.setMonitorCallback c).1.fCurrentWindow = ctx.fCurrentWindow ∧
      (ctx.setMonitorCallback c).1.fLastKnownFocusedWindow = ctx.fLastKnownFocusedWindow ∧
      (ctx.setMonitorCallback c).1.fConfig = ctx.fConfig ∧
      (ctx.setMonitorCallback c).1.fFullscreenRequest = ctx.fFullscreenRequest ∧
      (ctx.setMonitorCallback c).1.fPointerLockRequest = ctx.fPointerLockRequest ∧
      (ctx.setMonitorCallback c).1.fPointerUnlockRequest = ctx.fPointerUnlockRequest ∧
      (ctx.setMonitorCallback c).1.fScale = ctx.fScale ∧
      (ctx.setMonitorCallback c).1.fInitialTime = ctx.fInitialTime ∧
      (ctx.setMonitorCallback c).1.dispatched = ctx.dispatched) ∧
    (({ (ctx.setJoystickCallback c).1 with fJoystickCallback := ctx.fJoystickCallback }
        : Context Config) = ctx ∧
      (ctx.setJoystickCallback c).1.fMonitorCallback = ctx.fMonitorCallback ∧
      (ctx.setJoystickCallback c).1.fWindows = ctx.fWindows ∧
      (ctx.setJoystickCallback c).1.fCurrentWindowOpaquePtr = ctx.fCurrentWindowOpaquePtr ∧
      (ctx.setJoystickCallback c).1.fCurrentWindow = ctx.fCurrentWindow ∧
      (ctx.setJoystickCallback c).1.fLastKnownFocusedWindow = ctx.fLastKnownFocusedWindow ∧
      (ctx.setJoystickCallback c).1.fConfig = ctx.fConfig ∧
      (ctx.setJoystickCallback c).1.fFullscreenRequest = ctx.fFullscreenRequest ∧
      (ctx.setJoystickCallback c).1.fPointerLockRequest = ctx.fPointerLockRequest ∧
      (ctx.setJoystickCallback c).1.fPointerUnlockRequest = ctx.fPointerUnlockRequest ∧
      (ctx.setJoystickCallback c).1.fScale = ctx.fScale ∧
      (ctx.setJoystickCallback c).1.fInitialTime = ctx.fInitialTime ∧
      (ctx.setJoystickCallback c).1.dispatched = ctx.dispatched) :=
  ⟨⟨rfl, rfl, rfl, rfl, rfl, rfl, rfl, rfl, rfl, rfl, rfl, rfl, rfl⟩,
    ⟨rfl, rfl, rfl, rfl, rfl, rfl, rfl, rfl, rfl, rfl, rfl, rfl, rfl⟩⟩

/-- C10: the Context given by the default member initialisers is idle: empty registry, null
current window (opaque pointer and shared pointer), null last-known-focused window, no
pending fullscreen, pointer-lock or pointer-unlock request, null monitor and joystick
callbacks, present-joystick count 0, scale 1.0, and a current Monitor that is not null. -/
theorem C10_member_initialisers_give_idle_state {Config : Type} [Inhabited Config]
    (iPlatformTime : ℚ) (iMonitor : Monitor) :
    (Context.memberInit iPlatformTime iMonitor : Context Config).fWindows = [] ∧
    (Context.memberInit iPlatformTime iMonitor : Context Config).fCurrentWindowOpaquePtr
      = none ∧
    (Context.memberInit iPlatformTime iMonitor : Context Config).fCurrentWindow = none ∧
    (Context.memberInit iPlatformTime iMonitor : Context Config).fLastKnownFocusedWindow
      = none ∧
    (Context.memberInit iPlatformTime iMonitor : Context Config).fFullscreenRequest = none ∧
    (Context.memberInit iPlatformTime iMonitor : Context Config).fPointerLockRequest = none ∧
    (Context.memberInit iPlatformTime iMonitor : Context Config).fPointerUnlockRequest
      = none ∧
    (Context.memberInit iPlatformTime iMonitor : Context Config).fMonitorCallback = none ∧
    (Context.memberInit iPlatformTime iMonitor : Context Config).fJoystickCallback = none ∧
    (Context.memberInit iPlatformTime iMonitor : Context Config).fPresentJoystickCount = 0 ∧
    (Context.memberInit iPlatformTime iMonitor : Context Config).fScale = 1 ∧
    (Context.memberInit iPlatformTime iMonitor : Context Config).fCurrentMonitor ≠ none ∧
    (Context.memberInit iPlatformTime iMonitor : Context Config).fConfig = default ∧
    (Context.memberInit iPlatformTime iMonitor : Context Config).fInitialTime
      = iPlatformTime := by
  refine ⟨rfl, rfl, rfl, rfl, rfl, rfl, rfl, rfl, rfl, rfl, rfl, ?_, rfl, rfl⟩
  simp [Context.memberInit]

/-- C7: in every state of the Context, hence in every reachable one, there is at most one
pending fullscreen request, at most one pending pointer-lock request and at most one pending
pointer-unlock request; so for every window handle at most one pending request of each kind
targets it, and two windows of the registry with a fullscreen negotiation in flight are the
same window. -/
theorem C7_at_most_one_pending_request_per_kind {Config : Type} (ctx : Context Config) :
    (ctx.pendingFullscreenRequests.length ≤ 1 ∧
      ctx.pendingPointerLockRequests.length ≤ 1 ∧
      ctx.pendingPointerUnlockRequests.length ≤ 1) ∧
    (∀ h : GLFWwindowPtr,
      (ctx.pendingFullscreenRequests.filter (fun r => decide (r.fWindow = h))).length ≤ 1 ∧
      (ctx.pendingPointerLockRequests.filter (fun r => decide (r.fWindow = h))).length ≤ 1 ∧
      (ctx.pendingPointerUnlockRequests.filter (fun r => decide (r.fWindow = h))).length ≤ 1) ∧
    (∀ w1 ∈ ctx.fWindows, ∀ w2 ∈ ctx.fWindows,
      ctx.hasFullscreenNegotiation w1 = true → ctx.hasFullscreenNegotiation w2 = true →
      w1.handle = w2.handle) := by
  have hlen : ∀ {α : Type} (o : Option α), o.toList.length ≤ 1 := by
    intro α o
    cases o <;> simp
  have hfilter : ∀ {α : Type} (o : Option α) (p : α → Bool),
      (o.toList.filter p).length ≤ 1 := by
    intro α o p
    exact le_trans (List.length_filter_le p o.toList) (hlen o)
  refine ⟨⟨hlen _, hlen _, hlen _⟩, fun h => ⟨hfilter _ _, hfilter _ _, hfilter _ _⟩, ?_⟩
  intro w1 _ w2 _ h1 h2
  unfold Context.hasFullscreenNegotiation Context.pendingFullscreenRequests at h1 h2
  cases hr : ctx.fFullscreenRequest with
  | none => simp [hr] at h1
  | some r =>
    simp [hr, Window.asOpaquePtr] at h1 h2
    rw [h1] at h2
    exact Option.some.inj h2

/-- Witness of C7: in the demo Context with a fullscreen request pending on window 1, the two
registry windows with a negotiation in flight are both window 1. -/
theorem C7_at_most_one_pending_request_per_kind_witness :
    Context.demoWindow1 ∈ (Context.demoContext.requestFullscreen (some 1) true true).fWindows ∧
    (Context.demoContext.requestFullscreen (some 1) true true).hasFullscreenNegotiation
      Context.demoWindow1 = true ∧
    Context.demoWindow1.handle = Context.demoWindow1.handle :=
  ⟨by decide, by decide,
    (C7_at_most_one_pending_request_per_kind
      (Context.demoContext.requestFullscreen (some 1) true true)).2.2
      Context.demoWindow1 (by decide) Context.demoWindow1 (by decide) (by decide) (by decide)⟩

/-! ## Claims settled on the operations modelled from the specification -/

/-- C2: after `destroyWindow(h)` no reference to `h` remains in the Context: `getWindow(h)`
is null and no registry entry has handle `h`; `getCurrentContext()` is not `h`, and is null
if `h` was the current window (likewise the shared pointer `fCurrentWindow`); the
last-known-focused window is not `h`, and is null if `h` was it; no pending request targets
`h`. A current window or last-focused window different from `h` is left as it was. This
holds for every handle `h`, in the registry or not. -/
theorem C2_destroyWindow_leaves_no_reference {Config : Type} (ctx : Context Config) (h : Nat) :
    ((ctx.destroyWindow (some h)).getWindow (some h) = none ∧
      ∀ w ∈ (ctx.destroyWindow (some h)).fWindows, w.handle ≠ h) ∧
    ((ctx.destroyWindow (some h)).getCurrentContext ≠ some h ∧
      (ctx.getCurrentContext = some h → (ctx.destroyWindow (some h)).getCurrentContext = none) ∧
      (ctx.getCurrentContext ≠ some h →
        (ctx.destroyWindow (some h)).getCurrentContext = ctx.getCurrentContext)) ∧
    ((ctx.destroyWindow (some h)).fCurrentWindow ≠ some h ∧
      (ctx.fCurrentWindow = some h → (ctx.destroyWindow (some h)).fCurrentWindow = none) ∧
      (ctx.fCurrentWindow ≠ some h →
        (ctx.destroyWindow (some h)).fCurrentWindow = ctx.fCurrentWindow)) ∧
    ((ctx.destroyWindow (some h)).fLastKnownFocusedWindow ≠ some h ∧
      (ctx.fLastKnownFocusedWindow = some h →
        (ctx.destroyWindow (some h)).fLastKnownFocusedWindow = none) ∧
      (ctx.fLastKnownFocusedWindow ≠ some h →
        (ctx.destroyWindow (some h)).fLastKnownFocusedWindow = ctx.fLastKnownFocusedWindow)) ∧
    ((∀ r ∈ (ctx.destroyWindow (some h)).pendingFullscreenRequests, r.fWindow ≠ some h) ∧
      (∀ r ∈ (ctx.destroyWindow (some h)).pendingPointerLockRequests, r.fWindow ≠ some h) ∧
      (∀ r ∈ (ctx.destroyWindow (some h)).pendingPointerUnlockRequests,
        r.fWindow ≠ some h)) := by
  have hslot : ∀ p : Option Nat,
      (if p = some h then none else p) ≠ some h ∧
      (p = some h → (if p = some h then none else p) = none) ∧
      (p ≠ some h → (if p = some h then none else p) = p) := by
    intro p
    refine ⟨?_, fun hp => if_pos hp, fun hp => if_neg hp⟩
    by_cases hp : p = some h
    · simp [hp]
    · simp [hp]
  have hreq : ∀ {α : Type} (o : Option α) (f : α → GLFWwindowPtr),
      ∀ r ∈ (o.filter (fun r => !decide (f r = some h))).toList, f r ≠ some h := by
    intro α o f r hr
    cases o with
    | none => simp [Option.filter] at hr
    | some x =>
      by_cases hx : f x = some h
      · simp [Option.filter, hx] at hr
      · simp [Option.filter, hx] at hr
        rw [hr]
        exact hx
  refine ⟨⟨?_, ?_⟩, hslot _, hslot _, hslot _, hreq _ _, hreq _ _, hreq _ _⟩
  · simp [Context.getWindow, Context.findWindow, Context.destroyWindow, Window.asOpaquePtr]
  · intro w hw
    simp [Context.destroyWindow, Window.asOpaquePtr] at hw
    exact hw.2

/-- Witness of C2: in the demo Context, window 1 is current and window 2 last focused;
destroying window 1 empties the current window. -/
theorem C2_destroyWindow_leaves_no_reference_witness :
    Context.demoContext.getCurrentContext = some 1 ∧
    (Context.demoContext.destroyWindow (some 1)).getCurrentContext = none :=
  ⟨by decide, (C2_destroyWindow_leaves_no_reference Context.demoContext 1).2.1.2.1 (by decide)⟩

/-- C4: after a non-empty run of `requestFullscreen(w, lockPointer_i, resizeCanvas_i)` calls
on one window with no confirmation in between, the pending fullscreen request is exactly the
one built from the last call (one request, not a queue) and the Context is the one the last
call alone would have given, so the enter-fullscreen confirmation does what it would do after
the last call alone. When `w` is in the registry, the confirmation is handled, clears the
request, leaves a pointer-lock request pending exactly when the last `lockPointer` is set,
and gives `w` the work-area size of the monitor exactly when the last `resizeCanvas` is
set. -/
theorem C4_last_fullscreen_request_wins {Config : Type} (ctx : Context Config)
    (iWindow : GLFWwindowPtr) (os : List (Bool × Bool)) (h : os ≠ []) :
    (ctx.requestFullscreens iWindow os).fFullscreenRequest
      = some ⟨iWindow, (os.getLast h).1, (os.getLast h).2⟩ ∧
    (ctx.requestFullscreens iWindow os).pendingFullscreenRequests
      = [⟨iWindow, (os.getLast h).1, (os.getLast h).2⟩] ∧
    ctx.requestFullscreens iWindow os
      = ctx.requestFullscreen iWindow (os.getLast h).1 (os.getLast h).2 ∧
    (ctx.requestFullscreens iWindow os).onEnterFullscreen
      = (ctx.requestFullscreen iWindow (os.getLast h).1 (os.getLast h).2).onEnterFullscreen ∧
    (∀ win, ctx.findWindow iWindow = some win →
      (ctx.requestFullscreens iWindow os).onEnterFullscreen.2 = true ∧
      (ctx.requestFullscreens iWindow os).onEnterFullscreen.1.fFullscreenRequest = none ∧
      (ctx.requestFullscreens iWindow os).onEnterFullscreen.1.fPointerLockRequest
        = (if (os.getLast h).1 then some ⟨iWindow⟩ else ctx.fPointerLockRequest) ∧
      (∀ m, ctx.fCurrentMonitor = some m →
        (ctx.requestFullscreens iWindow os).onEnterFullscreen.1.findWindow iWindow
          = some (if (os.getLast h).2
              then { win with fWidth := m.fWorkAreaWidth, fHeight := m.fWorkAreaHeight }
              else win))) := by
  have hrun := Context.requestFullscreens_eq_last iWindow os h ctx
  refine ⟨by rw [hrun]; rfl, by rw [hrun]; rfl, hrun, by rw [hrun], ?_⟩
  intro win hwin
  rw [hrun, Context.onEnterFullscreen_requestFullscreen ctx iWindow _ _ win hwin]
  have hcleared : ({ ctx with fFullscreenRequest := none } : Context Config).findWindow iWindow
      = some win := hwin
  cases hlp : (os.getLast h).1 <;> cases hrc : (os.getLast h).2 <;>
    cases hmon : ctx.fCurrentMonitor <;>
    simp [Context.requestPointerLock, Context.onWindowResize_requests, hcleared,
      Context.findWindow_onWindowResize _ iWindow win _ _ hcleared] <;>
    first
      | exact hwin
      | exact Context.findWindow_onWindowResize _ iWindow win _ _ hcleared

/-- Witness of C4: on the demo Context, `requestFullscreen(1, false, false)` then
`requestFullscreen(1, true, true)`; after the confirmation a pointer-lock request is pending
and window 1 has the 1920x1080 work area of the monitor. -/
theorem C4_last_fullscreen_request_wins_witness :
    [(false, false), (true, true)] ≠ [] ∧
    Context.demoContext.findWindow (some 1) = some Context.demoWindow1 ∧
    Context.demoContext.fCurrentMonitor = some Context.demoMonitor ∧
    (Context.demoContext.requestFullscreens (some 1)
      [(false, false), (true, true)]).onEnterFullscreen.1.fPointerLockRequest
        = some ⟨some 1⟩ ∧
    (Context.demoContext.requestFullscreens (some 1)
      [(false, false), (true, true)]).onEnterFullscreen.1.findWindow (some 1)
        = some { Context.demoWindow1 with fWidth := 1920, fHeight := 1080 } :=
  ⟨by decide, by decide, rfl,
    ((C4_last_fullscreen_request_wins Context.demoContext (some 1)
      [(false, false), (true, true)] (by decide)).2.2.2.2
        Context.demoWindow1 (by decide)).2.2.1,
    ((C4_last_fullscreen_request_wins Context.demoContext (some 1)
      [(false, false), (true, true)] (by decide)).2.2.2.2
        Context.demoWindow1 (by decide)).2.2.2 Context.demoMonitor rfl⟩

/-- C9: the timer frequency `kTimerFrequency` is 1000 ticks per second (and fits
`uint64_t`), so a tick is a millisecond: when the clock advances by `d` ticks, the raw timer
`getTimerValue()` advances by `d` (while it stays within 64 bits) and `getTimeInSeconds()`
advances by exactly `d / 1000` seconds; and after `setTimeInSeconds(v)` the time reads `v`
at once and `v + d / 1000` after `d` more ticks. -/
theorem C9_timer_unit_is_milliseconds {Config : Type} (ctx : Context Config)
    (iPlatformTimerValue iValue : ℚ) (d : Nat)
    (hclock : 0 ≤ iPlatformTimerValue) (hfit : ⌊iPlatformTimerValue⌋.toNat + d < 2 ^ 64) :
    (kTimerFrequency = 1000 ∧ kTimerFrequency < 2 ^ 64) ∧
    Context.getTimerValue (iPlatformTimerValue + d)
      = Context.getTimerValue iPlatformTimerValue + d ∧
    ctx.getTimeInSeconds (iPlatformTimerValue + d) - ctx.getTimeInSeconds iPlatformTimerValue
      = (d : ℚ) / 1000 ∧
    (ctx.setTimeInSeconds iPlatformTimerValue iValue).getTimeInSeconds iPlatformTimerValue
      = iValue ∧
    (ctx.setTimeInSeconds iPlatformTimerValue iValue).getTimeInSeconds
      (iPlatformTimerValue + d) = iValue + (d : ℚ) / 1000 := by
  have hfloor : 0 ≤ ⌊iPlatformTimerValue⌋ := Int.floor_nonneg.mpr hclock
  have hadd : ⌊iPlatformTimerValue + (d : ℚ)⌋.toNat = ⌊iPlatformTimerValue⌋.toNat + d := by
    rw [Int.floor_add_nat]
    omega
  refine ⟨⟨rfl, by decide⟩, ?_, ?_, ?_, ?_⟩
  · unfold Context.getTimerValue
    rw [hadd, Nat.mod_eq_of_lt hfit, Nat.mod_eq_of_lt (by omega)]
  · simp only [Context.getTimeInSeconds, kTimerFrequency]
    push_cast
    ring
  · simp only [Context.getTimeInSeconds, Context.setTimeInSeconds, kTimerFrequency]
    push_cast
    field_simp
  · simp only [Context.getTimeInSeconds, Context.setTimeInSeconds, kTimerFrequency]
    push_cast
    field_simp
    ring

/-- Witness of C9: on the demo Context at clock value 5/2 ms, 3 ticks later the raw timer
has advanced by 3 and the time in seconds by 3/1000. -/
theorem C9_timer_unit_is_milliseconds_witness :
    (0 : ℚ) ≤ 5 / 2 ∧ ⌊(5 / 2 : ℚ)⌋.toNat + 3 < 2 ^ 64 ∧
    Context.getTimerValue ((5 / 2 : ℚ) + (3 : Nat)) = Context.getTimerValue (5 / 2) + 3 ∧
    Context.demoContext.getTimeInSeconds ((5 / 2 : ℚ) + (3 : Nat))
      - Context.demoContext.getTimeInSeconds (5 / 2) = ((3 : Nat) : ℚ) / 1000 :=
  ⟨by norm_num, by rw [Context.floor_five_halves]; decide,
    (C9_timer_unit_is_milliseconds Context.demoContext (5 / 2) 100 3
      (by norm_num) (by rw [Context.floor_five_halves]; decide)).2.1,
    (C9_timer_unit_is_milliseconds Context.demoContext (5 / 2) 100 3
      (by norm_num) (by rw [Context.floor_five_halves]; decide)).2.2.1⟩

end emscripten.glfw3
